import Mathlib

/-!
Shallow embedding of the pico-firmware-switcher core
(`pico.py` and the `pico_switcher` package) and proofs about it.

Conventions:
* Python strings become `String`; byte sequences become `List Nat`.
* Wall-clock time is modelled in seconds as `ℚ`; the fixed poll sleep of
  0.2 s is the rational `1/5`, and the `time.sleep(0.15)` settle delay is
  `3/20`.
* Fallible Python functions (those that `raise RuntimeError`) become
  `Except String α`, the error carrying the exception message text.
* External effects (subprocess results, serial I/O, the OS mount table)
  enter as explicit parameters; functions that perform effects also
  return a trace recording which effects they performed.
-/

/-! ## Substring containment (Python's `needle in line`) -/

/-- Boolean prefix test on character lists (`a` is a prefix of `b`). -/
def charListPrefix : List Char → List Char → Bool
  | [], _ => true
  | _ :: _, [] => false
  | a :: as, b :: bs => a == b && charListPrefix as bs

/-- Boolean infix test on character lists: `needle` occurs contiguously in the second list. -/
def charListContains (needle : List Char) : List Char → Bool
  | [] => needle.isEmpty
  | c :: rest => charListPrefix needle (c :: rest) || charListContains needle rest

/-- Python's `needle in hay` substring test on strings. -/
def strContains (hay needle : String) : Bool :=
  charListContains needle.toList hay.toList

/-! ## Python `str.strip()` -/

/-- Drop leading and trailing whitespace from a character list. -/
def stripChars (l : List Char) : List Char :=
  ((l.dropWhile Char.isWhitespace).reverse.dropWhile Char.isWhitespace).reverse

/-- Python's `s.strip()`: remove leading and trailing whitespace. -/
def pyStrip (s : String) : String :=
  ⟨stripChars s.toList⟩

/-! ## `read_banner` (pico_switcher/pico_device.py lines 171-201; identical in pico.py 132-151)

The serial stream is modelled as the finite list of raw `readline` results
obtained before the deadline, each already decoded (`decode(errors="ignore")`)
but not yet stripped.  An element `""` models an empty read (`readline`
returned no bytes before its 0.1 s per-read timeout): the source skips it
via `if not raw: continue`.  A non-empty raw line is stripped
(`pyStrip` models Python `str.strip`) and recorded as `last_line`
before the marker checks. -/

/-- Loop body of `read_banner`: scan raw lines, threading `last_line`. -/
def banner_scan : List String → String → Option String × String
  | [], last => (none, last)
  | raw :: rest, last =>
    if raw = "" then banner_scan rest last
    else
      let line := pyStrip raw
      if strContains line "FW:PY" then (some "py", line)
      else if strContains line "FW:CPP" then (some "cpp", line)
      else banner_scan rest line

/-- `read_banner`: returns `(mode, last_line)` with `last_line` initially `""`. -/
def read_banner (stream : List String) : Option String × String :=
  banner_scan stream ""

/-- The stripped non-skipped lines actually examined by the scan loop. -/
def processedLines (stream : List String) : List String :=
  (stream.filter (fun raw => raw ≠ "")).map pyStrip

theorem processedLines_nil : processedLines [] = [] := rfl

theorem processedLines_cons (raw : String) (rest : List String) :
    processedLines (raw :: rest) =
      if raw = "" then processedLines rest else pyStrip raw :: processedLines rest := by
  by_cases h : raw = "" <;> simp [processedLines, h]

/-- Scanning only depends on the processed lines: helper induction for the
banner theorems.  If the processed lines decompose as `pre ++ x :: post`
with the managed-runtime marker in `x` and no native marker in `pre` or in
`x`, the scan yields `"py"` whatever the threaded `last_line` is. -/
theorem banner_scan_py_first (stream : List String) :
    ∀ (last : String) (pre post : List String) (x : String),
      processedLines stream = pre ++ x :: post →
      strContains x "FW:PY" = true →
      strContains x "FW:CPP" = false →
      (∀ y ∈ pre, strContains y "FW:CPP" = false) →
      (banner_scan stream last).1 = some "py" := by
  induction stream with
  | nil =>
    intro last pre post x hdecomp _ _ _
    rw [processedLines_nil] at hdecomp
    exact absurd hdecomp (by simp)
  | cons raw rest ih =>
    intro last pre post x hdecomp hpy hcpp hpre
    rw [processedLines_cons] at hdecomp
    by_cases hraw : raw = ""
    · rw [if_pos hraw] at hdecomp
      simp only [banner_scan, if_pos hraw]
      exact ih last pre post x hdecomp hpy hcpp hpre
    · rw [if_neg hraw] at hdecomp
      simp only [banner_scan, if_neg hraw]
      cases pre with
      | nil =>
        simp only [List.nil_append, List.cons.injEq] at hdecomp
        rw [hdecomp.1, hpy]
        simp
      | cons y pre' =>
        simp only [List.cons_append, List.cons.injEq] at hdecomp
        have hycpp : strContains y "FW:CPP" = false := hpre y (List.mem_cons_self y pre')
        rw [← hdecomp.1] at hycpp
        by_cases hypy : strContains (pyStrip raw) "FW:PY" = true
        · rw [hypy]; simp
        · rw [Bool.not_eq_true] at hypy
          rw [hypy, hycpp]
          simp only [Bool.false_eq_true, if_false]
          exact ih (pyStrip raw) pre' post x hdecomp.2 hpy hcpp
            (fun z hz => hpre z (List.mem_cons_of_mem y hz))

/-- C6: for every banner line stream, if some processed line contains the
managed-runtime marker `"FW:PY"` and that occurrence precedes every line
containing the native marker `"FW:CPP"` (in particular no native marker in
or before it), `read_banner` returns mode `"py"`; matching is raw substring
containment, the first matched line deciding. -/
theorem read_banner_py_marker_first (stream : List String)
    (pre post : List String) (x : String)
    (hdecomp : processedLines stream = pre ++ x :: post)
    (hpy : strContains x "FW:PY" = true)
    (hcpp : strContains x "FW:CPP" = false)
    (hpre : ∀ y ∈ pre, strContains y "FW:CPP" = false) :
    (read_banner stream).1 = some "py" :=
  banner_scan_py_first stream "" pre post x hdecomp hpy hcpp hpre

/-- Witness for C6: the concrete stream `["boot", "x FW:PY y"]` yields `"py"`. -/
theorem read_banner_py_marker_first_witness :
    (read_banner ["boot", "x FW:PY y"]).1 = some "py" :=
  read_banner_py_marker_first ["boot", "x FW:PY y"] ["boot"] [] "x FW:PY y"
    (by decide) (by decide) (by decide) (by decide)

/-- Helper induction for C7: with no marker anywhere in the processed lines,
the scan returns `none` paired with the last processed line, defaulting to
the threaded accumulator — the accumulator is overwritten by every
processed line, including lines that stripped to the empty string. -/
theorem banner_scan_no_marker (stream : List String) :
    ∀ last : String,
      (∀ line ∈ processedLines stream,
        strContains line "FW:PY" = false ∧ strContains line "FW:CPP" = false) →
      banner_scan stream last = (none, (processedLines stream).getLastD last) := by
  induction stream with
  | nil => intro last _; rfl
  | cons raw rest ih =>
    intro last hno
    rw [processedLines_cons] at hno ⊢
    by_cases hraw : raw = ""
    · rw [if_pos hraw] at hno ⊢
      simp only [banner_scan, if_pos hraw]
      exact ih last hno
    · rw [if_neg hraw] at hno ⊢
      simp only [banner_scan, if_neg hraw]
      have hhead := hno (pyStrip raw) (List.mem_cons_self _ _)
      rw [hhead.1, hhead.2]
      simp only [Bool.false_eq_true, if_false, List.getLastD_cons]
      exact ih (pyStrip raw) (fun l hl => hno l (List.mem_cons_of_mem _ hl))

/-- Counterexample for C7: the stream `["hello", " "]` contains no marker
and its last non-empty stripped line is `"hello"`, yet `read_banner`
returns `(none, "")`: the whitespace-only raw line `" "` strips to `""`
and overwrites the stored diagnostic line. -/
theorem read_banner_last_line_counterexample :
    read_banner ["hello", " "] ≠ (none, "hello") ∧
      read_banner ["hello", " "] = (none, "") := by
  constructor <;> decide

/-- C7 (amended): for every banner line stream containing no recognized
marker, `read_banner` returns no mode paired with the *stripped text of the
last non-skipped raw line* (default `""`): only wholly-empty reads leave
the diagnostic unchanged, while a whitespace-only raw line overwrites it
with the empty string. -/
theorem read_banner_no_marker_last_processed (stream : List String)
    (hno : ∀ line ∈ processedLines stream,
      strContains line "FW:PY" = false ∧ strContains line "FW:CPP" = false) :
    read_banner stream = (none, (processedLines stream).getLastD "") :=
  banner_scan_no_marker stream "" hno

/-- Witness for C7 (amended): stream `["alpha", "", " beta "]` yields
`(none, "beta")`. -/
theorem read_banner_no_marker_last_processed_witness :
    read_banner ["alpha", "", " beta "] = (none, "beta") := by
  have h := read_banner_no_marker_last_processed ["alpha", "", " beta "] (by decide)
  rw [h]; decide

/-- Helper induction for C10: any returned mode is `"py"` or `"cpp"` and the
returned line contains the corresponding marker. -/
theorem banner_scan_mode_cases (stream : List String) :
    ∀ (last : String) (m line : String),
      banner_scan stream last = (some m, line) →
      (m = "py" ∧ strContains line "FW:PY" = true) ∨
        (m = "cpp" ∧ strContains line "FW:CPP" = true) := by
  induction stream with
  | nil =>
    intro last m line h
    exact absurd h (by simp [banner_scan])
  | cons raw rest ih =>
    intro last m line h
    by_cases hraw : raw = ""
    · simp only [banner_scan, if_pos hraw] at h
      exact ih last m line h
    · simp only [banner_scan, if_neg hraw] at h
      by_cases hpy : strContains (pyStrip raw) "FW:PY" = true
      · rw [hpy] at h
        simp only [if_true, Prod.mk.injEq, Option.some.injEq] at h
        exact Or.inl ⟨h.1.symm, h.2 ▸ hpy⟩
      · rw [Bool.not_eq_true] at hpy
        rw [hpy] at h
        simp only [Bool.false_eq_true, if_false] at h
        by_cases hcpp : strContains (pyStrip raw) "FW:CPP" = true
        · rw [hcpp] at h
          simp only [if_true, Prod.mk.injEq, Option.some.injEq] at h
          exact Or.inr ⟨h.1.symm, h.2 ▸ hcpp⟩
        · rw [Bool.not_eq_true] at hcpp
          rw [hcpp] at h
          simp only [Bool.false_eq_true, if_false] at h
          exact ih (pyStrip raw) m line h

/-- C10: whenever `read_banner` returns a non-`none` mode, that mode is one
of exactly `"py"` and `"cpp"` — never `"bootsel"` — and the returned line
contains the corresponding marker substring (`"FW:PY"` for `"py"`,
`"FW:CPP"` for `"cpp"`). -/
theorem read_banner_mode_invariant (stream : List String) (m line : String)
    (h : read_banner stream = (some m, line)) :
    (m = "py" ∧ strContains line "FW:PY" = true) ∨
      (m = "cpp" ∧ strContains line "FW:CPP" = true) :=
  banner_scan_mode_cases stream "" m line h

/-- Witness for C10: the stream `["zFW:CPPz"]` returns mode `"cpp"` with a
line containing `"FW:CPP"`. -/
theorem read_banner_mode_invariant_witness :
    ("cpp" = "py" ∧ strContains "zFW:CPPz" "FW:PY" = true) ∨
      ("cpp" = "cpp" ∧ strContains "zFW:CPPz" "FW:CPP" = true) :=
  read_banner_mode_invariant ["zFW:CPPz"] "cpp" "zFW:CPPz" (by decide)

/-! ## Block-device locator (`find_rpi_rp2`, pico_switcher/pico_device.py 45-67; identical in pico.py 50-62)

`lsblk -P -n -o NAME,LABEL,MOUNTPOINT` output is modelled after parsing:
each non-blank line becomes an `LsblkEntry` with the three requested
columns (all three keys are always emitted by `lsblk`, an absent value
being the empty string, which is how `entry.get("MOUNTPOINT", "")`
behaves).  The `lsblk` failure branch (nonzero exit raising
`RuntimeError`) is outside the states the claims quantify over, so the
embedding takes the parsed entry list directly. -/

/-- One parsed `lsblk -P` line. -/
structure LsblkEntry where
  name : String
  label : String
  mountpoint : String
deriving DecidableEq, Repr

/-- A discovered RPI-RP2 block device entry (`Rp2Device` dataclass). -/
structure Rp2Device where
  name : String
  mountpoint : String
deriving DecidableEq, Repr

/-- `find_rpi_rp2`: first entry whose volume label is exactly `"RPI-RP2"`. -/
def find_rpi_rp2 : List LsblkEntry → Option Rp2Device
  | [] => none
  | e :: rest =>
    if e.label = "RPI-RP2" then some ⟨e.name, e.mountpoint⟩
    else find_rpi_rp2 rest

/-- If no entry carries the `RPI-RP2` label, the locator reports nothing. -/
theorem find_rpi_rp2_eq_none (entries : List LsblkEntry)
    (h : ∀ e ∈ entries, e.label ≠ "RPI-RP2") : find_rpi_rp2 entries = none := by
  induction entries with
  | nil => rfl
  | cons e rest ih =>
    simp only [find_rpi_rp2, if_neg (h e (List.mem_cons_self _ _))]
    exact ih (fun x hx => h x (List.mem_cons_of_mem _ hx))

/-- If some entry carries the `RPI-RP2` label, the locator reports a device. -/
theorem find_rpi_rp2_isSome (entries : List LsblkEntry)
    (h : ∃ e ∈ entries, e.label = "RPI-RP2") : (find_rpi_rp2 entries).isSome := by
  induction entries with
  | nil => exact absurd h (by simp)
  | cons e rest ih =>
    by_cases he : e.label = "RPI-RP2"
    · simp [find_rpi_rp2, he]
    · simp only [find_rpi_rp2, if_neg he]
      rcases h with ⟨x, hx, hlab⟩
      rcases List.mem_cons.mp hx with rfl | hx'
      · exact absurd hlab he
      · exact ih ⟨x, hx', hlab⟩

/-! ## Mount manager (`ensure_rpi_rp2_mounted`, pico_switcher/pico_device.py 70-100; identical in pico.py 65-82) -/

/-- Result of one external command run (`subprocess.run` with output captured). -/
structure CmdResult where
  exitOk : Bool
  stderr : String
  stdout : String
deriving DecidableEq, Repr

/-- Filesystem side effects performed by the mount manager: directories
created (`mkdir -p`) and mount commands issued (device name, mountpoint). -/
structure FsTrace where
  mkdirs : List String
  mounts : List (String × String)
deriving DecidableEq, Repr

/-- `ensure_rpi_rp2_mounted`: return a mounted RPI-RP2 path, mounting
manually if needed.  `entries` is the current parsed `lsblk` output and
`mountCmd` the outcome the OS `mount` command would produce if issued. -/
def ensure_rpi_rp2_mounted (entries : List LsblkEntry) (mount_base : String)
    (mountCmd : CmdResult) : Except String String × FsTrace :=
  match find_rpi_rp2 entries with
  | none => (.error "Pico mass storage device (RPI-RP2) not found", ⟨[], []⟩)
  | some rp2 =>
    if rp2.mountpoint ≠ "" then (.ok rp2.mountpoint, ⟨[], []⟩)
    else
      if mountCmd.exitOk then
        (.ok mount_base, ⟨[mount_base], [(rp2.name, mount_base)]⟩)
      else
        let message :=
          if pyStrip mountCmd.stderr ≠ "" then pyStrip mountCmd.stderr
          else if pyStrip mountCmd.stdout ≠ "" then pyStrip mountCmd.stdout
          else "mount failed"
        (.error ("Failed to mount /dev/" ++ rp2.name ++ ": " ++ message),
          ⟨[mount_base], [(rp2.name, mount_base)]⟩)

/-- C8: whenever the locator finds zero devices labeled `RPI-RP2`,
`ensure_rpi_rp2_mounted` fails with the device-not-found error — not a
mount failure — for every fallback directory and every outcome a mount
command would have had, and it creates no directory and issues no mount
command. -/
theorem ensure_rpi_rp2_mounted_not_found (entries : List LsblkEntry)
    (mount_base : String) (mountCmd : CmdResult)
    (h : ∀ e ∈ entries, e.label ≠ "RPI-RP2") :
    ensure_rpi_rp2_mounted entries mount_base mountCmd =
      (.error "Pico mass storage device (RPI-RP2) not found", ⟨[], []⟩) := by
  unfold ensure_rpi_rp2_mounted
  rw [find_rpi_rp2_eq_none entries h]

/-- Witness for C8: one non-matching entry, an existing-directory fallback,
and a mount command that would have succeeded. -/
theorem ensure_rpi_rp2_mounted_not_found_witness :
    ensure_rpi_rp2_mounted [⟨"sda1", "DATA", "/mnt/data"⟩] "/mnt/pico" ⟨true, "", ""⟩ =
      (.error "Pico mass storage device (RPI-RP2) not found", ⟨[], []⟩) :=
  ensure_rpi_rp2_mounted_not_found [⟨"sda1", "DATA", "/mnt/data"⟩] "/mnt/pico"
    ⟨true, "", ""⟩ (by decide)

/-! ## `wait_for_bootsel_mount` (pico_switcher/pico_device.py 103-126; identical in pico.py 85-94)

Time model: entry to the function is instant `0`; `ensure_rpi_rp2_mounted`
attempts are instantaneous and the only passage of time is the
`time.sleep(0.2)` after a failed attempt, so the loop examines
`time.time() < deadline` at instants `0, 1/5, 2/5, …`.  The world may
change between polls, so the attempt outcomes are a function of the
attempt index.  A fuel argument bounds the recursion; every claim supplies
enough fuel for the deadline to be reached. -/

/-- Outcome of the wait loop, tagged with the elapsed time at return. -/
inductive WaitOutcome where
  | mounted (path : String) (elapsed : ℚ)
  | timedOut (msg : String) (elapsed : ℚ)
  | fuelExhausted
deriving DecidableEq, Repr

/-- The `while time.time() < deadline` loop of `wait_for_bootsel_mount`:
`i` is the attempt index (current time `i/5`), `lastError` the last
exception text seen. -/
def wait_mount_loop (ensure : ℕ → Except String String) (timeout : ℚ) :
    ℕ → ℕ → Option String → WaitOutcome
  | 0, _, _ => .fuelExhausted
  | fuel + 1, i, lastError =>
    if (i : ℚ) / 5 < timeout then
      match ensure i with
      | .ok p => .mounted p ((i : ℚ) / 5)
      | .error e => wait_mount_loop ensure timeout fuel (i + 1) (some e)
    else
      .timedOut (lastError.getD "Timed out waiting for RPI-RP2") ((i : ℚ) / 5)

/-- `wait_for_bootsel_mount`: run the poll loop from instant `0` with no
error recorded yet. -/
def wait_for_bootsel_mount (ensure : ℕ → Except String String) (timeout : ℚ)
    (fuel : ℕ) : WaitOutcome :=
  wait_mount_loop ensure timeout fuel 0 none

/-- Loop condition `time.time() < deadline` expressed on attempt indices:
the attempt at instant `i/5` runs iff `i < ⌈5·timeout⌉₊`. -/
theorem wait_cond_iff (timeout : ℚ) (i : ℕ) :
    ((i : ℚ) / 5 < timeout) ↔ i < ⌈5 * timeout⌉₊ := by
  rw [div_lt_iff₀ (by norm_num : (0 : ℚ) < 5), Nat.lt_ceil, mul_comm]

/-- One unfolding step of the wait loop at positive fuel. -/
theorem wait_mount_loop_succ (ensure : ℕ → Except String String) (timeout : ℚ)
    (fuel i : ℕ) (last : Option String) :
    wait_mount_loop ensure timeout (fuel + 1) i last =
      if (i : ℚ) / 5 < timeout then
        match ensure i with
        | .ok p => .mounted p ((i : ℚ) / 5)
        | .error e => wait_mount_loop ensure timeout fuel (i + 1) (some e)
      else
        .timedOut (last.getD "Timed out waiting for RPI-RP2") ((i : ℚ) / 5) := rfl

/-- Helper induction for C5: when every attempt fails, the loop runs
exactly through attempts `i, i+1, …, k-1` (where `k = ⌈5·timeout⌉₊`) and
times out at instant `k/5` carrying the error text of attempt `k-1`. -/
theorem wait_mount_loop_all_fail (ensure : ℕ → Except String String)
    (err : ℕ → String) (timeout : ℚ)
    (herr : ∀ j, ensure j = .error (err j)) :
    ∀ (fuel i : ℕ) (last : Option String),
      i < ⌈5 * timeout⌉₊ → ⌈5 * timeout⌉₊ - i < fuel →
      wait_mount_loop ensure timeout fuel i last =
        .timedOut (err (⌈5 * timeout⌉₊ - 1)) ((⌈5 * timeout⌉₊ : ℚ) / 5) := by
  intro fuel
  induction fuel with
  | zero => intro i last _ hfuel; omega
  | succ fuel ih =>
    intro i last hik hfuel
    rw [wait_mount_loop_succ, if_pos ((wait_cond_iff timeout i).mpr hik), herr i]
    by_cases hnext : i + 1 < ⌈5 * timeout⌉₊
    · exact ih (i + 1) (some (err i)) hnext (by omega)
    · have hk : i + 1 = ⌈5 * timeout⌉₊ := by omega
      have hfuel1 : 0 < fuel := by omega
      obtain ⟨fuel', rfl⟩ := Nat.exists_eq_succ_of_ne_zero (Nat.pos_iff_ne_zero.mp hfuel1)
      show wait_mount_loop ensure timeout (fuel' + 1) (i + 1) (some (err i)) = _
      rw [wait_mount_loop_succ, if_neg (by rw [wait_cond_iff, hk]; omega)]
      rw [← hk]
      have hsub : i + 1 - 1 = i := by omega
      rw [hsub]
      rfl

/-- C5: for every timeout `T > 0` and every locator/mounter that fails on
every attempt (with enough fuel to reach the deadline),
`wait_for_bootsel_mount` raises a timeout failure at an instant that is no
earlier than `T` and no later than `T + 1/5` (one 0.2 s poll interval)
after entry, and the failure carries the text of the *last* underlying
error observed during polling. -/
theorem wait_for_bootsel_mount_timeout (ensure : ℕ → Except String String)
    (err : ℕ → String) (timeout : ℚ) (fuel : ℕ)
    (herr : ∀ j, ensure j = .error (err j))
    (hT : 0 < timeout) (hfuel : ⌈5 * timeout⌉₊ < fuel) :
    wait_for_bootsel_mount ensure timeout fuel =
      .timedOut (err (⌈5 * timeout⌉₊ - 1)) ((⌈5 * timeout⌉₊ : ℚ) / 5) ∧
    timeout ≤ (⌈5 * timeout⌉₊ : ℚ) / 5 ∧
    (⌈5 * timeout⌉₊ : ℚ) / 5 ≤ timeout + 1 / 5 := by
  have hk : 0 < ⌈5 * timeout⌉₊ := Nat.ceil_pos.mpr (by linarith)
  refine ⟨?_, ?_, ?_⟩
  · exact wait_mount_loop_all_fail ensure err timeout herr fuel 0 none hk (by omega)
  · rw [le_div_iff₀ (by norm_num : (0 : ℚ) < 5)]
    have := Nat.le_ceil (5 * timeout)
    linarith
  · rw [div_le_iff₀ (by norm_num : (0 : ℚ) < 5)]
    have := Nat.ceil_lt_add_one (by linarith : (0 : ℚ) ≤ 5 * timeout)
    linarith

/-- Witness for C5: with timeout `2/5` s and attempts that fail with
messages `"e0", "e1", …`, the loop runs attempts 0 and 1 and times out at
instant `2/5` carrying `"e1"`. -/
theorem wait_for_bootsel_mount_timeout_witness :
    wait_for_bootsel_mount (fun j => .error ("e" ++ toString j)) (2 / 5) 10 =
      .timedOut ("e" ++ toString (⌈5 * (2 / 5 : ℚ)⌉₊ - 1)) ((⌈5 * (2 / 5 : ℚ)⌉₊ : ℚ) / 5) ∧
    (2 / 5 : ℚ) ≤ (⌈5 * (2 / 5 : ℚ)⌉₊ : ℚ) / 5 ∧
    (⌈5 * (2 / 5 : ℚ)⌉₊ : ℚ) / 5 ≤ 2 / 5 + 1 / 5 :=
  wait_for_bootsel_mount_timeout (fun j => .error ("e" ++ toString j))
    (fun j => "e" ++ toString j) (2 / 5) 10 (fun _ => rfl) (by norm_num)
    (by norm_num [Nat.ceil_eq_iff])

/-! ## Serial trigger writes (`trigger_from_cpp`)

The serial connection is modelled by the ordered list of events performed
on it.  Two implementations of `trigger_from_cpp` exist in the repository
and they differ:

* `pico.py` lines 178-187 writes `b"b"`, flushes, sleeps 0.15 s, writes
  the legacy `b"ru"`, flushes ("Send both new and legacy trigger
  sequences for compatibility");
* `pico_switcher/pico_device.py` lines 204-217 writes only `b"b"` and
  flushes.

Bytes are ASCII codes: `b"b" = [98]`, `b"ru" = [114, 117]`. -/

/-- One operation on an open serial connection. -/
inductive SerialEvent where
  | write (bytes : List ℕ)
  | flush
  | sleep (seconds : ℚ)
deriving DecidableEq, Repr

/-- The byte sequences written, in order, by a list of serial events. -/
def writesOf : List SerialEvent → List (List ℕ)
  | [] => []
  | .write bs :: rest => bs :: writesOf rest
  | .flush :: rest => writesOf rest
  | .sleep _ :: rest => writesOf rest

namespace PicoLegacy

/-- `trigger_from_cpp` of `pico.py`: primary trigger byte, 0.15 s settle
delay, then the two-byte legacy trigger. -/
def trigger_from_cpp : List SerialEvent :=
  [.write [98], .flush, .sleep (3 / 20), .write [114, 117], .flush]

end PicoLegacy

namespace PicoSwitcher

/-- `trigger_from_cpp` of `pico_switcher/pico_device.py`: primary trigger
byte only. -/
def trigger_from_cpp : List SerialEvent :=
  [.write [98], .flush]

end PicoSwitcher

/-! ## Mode detector (`detect_mode`, pico_switcher/pico_switch.py 19-56)

The package version consults, in order, the block-device locator, the
serial banner reader, and the `mpremote` MicroPython probe (`pico.py`'s
`detect_mode`, lines 154-169, lacks the probe step).  The trace counts
how many banner reads and how many probe round-trips were performed. -/

/-- Count of passive/active detection probes performed. -/
structure DetectTrace where
  bannerReads : ℕ
  probes : ℕ
deriving DecidableEq, Repr

/-- `detect_mode`: `entries` is the parsed `lsblk` output, `stream` the
serial data the banner reader would see, `probeOk` whether the `mpremote`
probe command would exit 0. -/
def detect_mode (entries : List LsblkEntry) (stream : List String)
    (probeOk : Bool) : Option String × DetectTrace :=
  match find_rpi_rp2 entries with
  | some _ => (some "bootsel", ⟨0, 0⟩)
  | none =>
    match read_banner stream with
    | (some m, _) => (some m, ⟨1, 0⟩)
    | (none, _) =>
      if probeOk then (some "py", ⟨1, 1⟩) else (none, ⟨1, 1⟩)

/-- C1: whenever the block-device locator reports a device whose volume
label is `"RPI-RP2"`, `detect_mode` returns `"bootsel"` without performing
a banner read or a runtime probe, for every serial stream and every probe
outcome. -/
theorem detect_mode_bootsel_priority (entries : List LsblkEntry)
    (stream : List String) (probeOk : Bool)
    (h : ∃ e ∈ entries, e.label = "RPI-RP2") :
    detect_mode entries stream probeOk = (some "bootsel", ⟨0, 0⟩) := by
  have hsome := find_rpi_rp2_isSome entries h
  unfold detect_mode
  obtain ⟨d, hd⟩ := Option.isSome_iff_exists.mp hsome
  rw [hd]

/-- Witness for C1: a matching device present, a stream that would have
said `"cpp"`, and a probe that would have succeeded — still `"bootsel"`
with zero banner reads and zero probes. -/
theorem detect_mode_bootsel_priority_witness :
    detect_mode [⟨"sdb1", "RPI-RP2", ""⟩] ["FW:CPP boot"] true =
      (some "bootsel", ⟨0, 0⟩) :=
  detect_mode_bootsel_priority [⟨"sdb1", "RPI-RP2", ""⟩] ["FW:CPP boot"] true
    ⟨⟨"sdb1", "RPI-RP2", ""⟩, by decide, rfl⟩

/-! ## mpremote bridge (`pico_switcher/pico_mpremote.py`) -/

/-- `_format_mpremote_error`: `(result.stderr or result.stdout or "").strip()`. -/
def format_mpremote_error (r : CmdResult) : String :=
  pyStrip (if r.stderr ≠ "" then r.stderr else if r.stdout ≠ "" then r.stdout else "")

/-- `trigger_from_py` (pico_mpremote.py 77-100): run
`mpremote connect <port> exec "import bootloader_trigger"` with
`allow_error=True`; return `None` on exit 0, else a captured error
summary (`err or "mpremote failed to run bootloader_trigger"`). -/
def trigger_from_py (r : CmdResult) : Option String :=
  if r.exitOk then none
  else
    let err := format_mpremote_error r
    some (if err = "" then "mpremote failed to run bootloader_trigger" else err)

/-! ## Switch orchestrator (`switch_firmware`, pico_switcher/pico_switch.py 79-206)

The collaborators are abstracted at their interface boundary: the
environment records the outcome each would produce if invoked.  The trace
records every externally visible action the orchestrator performed. -/

/-- Outcomes the collaborators would produce if invoked. -/
structure SwitchEnv where
  /-- What `detect_mode` would return (or the exception it would raise). -/
  detect : Except String (Option String)
  /-- The `mpremote … exec "import bootloader_trigger"` process outcome. -/
  pyTrigger : CmdResult
  /-- Whether opening the serial port for the C++ trigger would succeed. -/
  serialOpen : Except String Unit
  /-- What `wait_for_bootsel_mount` would return. -/
  mount : Except String String
  /-- Whether the UF2 image file exists locally. -/
  uf2Exists : Bool
  /-- Combined outcome of `wait_for_serial_port` plus `install_micropython_helpers`. -/
  helperStep : Except String Unit
deriving Repr

/-- Externally visible actions performed by one `switch_firmware` run. -/
structure STrace where
  /-- `mpremote` bootloader-trigger invocations. -/
  pyTriggers : ℕ
  /-- Byte sequences written to the serial connection, in order. -/
  serialWrites : List (List ℕ)
  /-- Invocations of `wait_for_bootsel_mount`. -/
  mountWaits : ℕ
  /-- UF2 images copied onto the firmware volume (`copy_uf2` completions). -/
  uf2Copies : ℕ
  /-- Helper-provisioning steps entered. -/
  helperRuns : ℕ
deriving DecidableEq, Repr

/-- The empty trace. -/
def STrace.zero : STrace := ⟨0, [], 0, 0, 0⟩

/-- Concatenation of two traces in temporal order. -/
def STrace.merge (a b : STrace) : STrace :=
  ⟨a.pyTriggers + b.pyTriggers, a.serialWrites ++ b.serialWrites,
    a.mountWaits + b.mountWaits, a.uf2Copies + b.uf2Copies,
    a.helperRuns + b.helperRuns⟩

/-- `copy_uf2` (pico_device.py 129-146): raise if the image is absent,
else copy it to the mounted volume and sync. -/
def copy_uf2 (uf2Exists : Bool) (uf2Path : String) : Except String Unit :=
  if uf2Exists then .ok () else .error ("UF2 file not found: " ++ uf2Path)

/-- `_trigger_bootsel` (pico_switch.py 166-190): dispatch on the resolved
mode; returns captured MicroPython error text, or raises on an unknown
mode.  The `"cpp"` branch performs the `pico_switcher` serial writes. -/
def trigger_bootsel (env : SwitchEnv) (selected : String) :
    Except String (Option String) × STrace :=
  if selected = "py" then
    (.ok (trigger_from_py env.pyTrigger), ⟨1, [], 0, 0, 0⟩)
  else if selected = "cpp" then
    match env.serialOpen with
    | .error e => (.error e, STrace.zero)
    | .ok _ => (.ok none, ⟨0, writesOf PicoSwitcher.trigger_from_cpp, 0, 0, 0⟩)
  else if selected = "bootsel" then
    (.ok none, STrace.zero)
  else
    (.error "Could not detect current mode. Use --mode py|cpp|bootsel to override.",
      STrace.zero)

/-- `_install_helpers_if_requested` (pico_switch.py 193-206): a no-op
unless the target is `"py"` and helper installation was requested. -/
def install_helpers_if_requested (env : SwitchEnv) (target : String)
    (installHelpers : Bool) : Except String Unit × STrace :=
  if target ≠ "py" ∨ installHelpers = false then (.ok (), STrace.zero)
  else
    match env.helperStep with
    | .error e => (.error e, ⟨0, [], 0, 0, 1⟩)
    | .ok _ => (.ok (), ⟨0, [], 0, 0, 1⟩)

/-- Mode resolution step of `switch_firmware` (pico_switch.py 124-126):
the `"auto"` override runs detection, an undetected mode becoming the
literal `"unknown"`; any other override is taken verbatim. -/
def resolve_mode (env : SwitchEnv) (mode : String) : Except String String :=
  if mode = "auto" then
    match env.detect with
    | .error e => .error e
    | .ok r => .ok (r.getD "unknown")
  else .ok mode

/-- Continuation of `switch_firmware` (pico_switch.py 141-163) after the
trigger step: await the bootloader volume (combining a captured
MicroPython trigger error with a mount failure), copy the UF2 and
optionally provision helpers.  Returns whether a UF2 was flashed, plus
the action trace accumulated from the trigger step onwards. -/
def switch_after_trigger (env : SwitchEnv) (target uf2Path : String)
    (installHelpers : Bool) :
    Except String (Option String) × STrace → Except String Bool × STrace
  | (.error e, tr) => (.error e, tr)
  | (.ok triggerError, tr) =>
    let tr1 := tr.merge ⟨0, [], 1, 0, 0⟩
    match env.mount with
    | .error exc =>
      match triggerError with
      | some te => (.error ("MicroPython trigger failed: " ++ te), tr1)
      | none => (.error exc, tr1)
    | .ok _mountpoint =>
      match copy_uf2 env.uf2Exists uf2Path with
      | .error e => (.error e, tr1)
      | .ok _ =>
        let tr2 := tr1.merge ⟨0, [], 0, 1, 0⟩
        match install_helpers_if_requested env target installHelpers with
        | (.error e, trh) => (.error e, tr2.merge trh)
        | (.ok _, trh) => (.ok true, tr2.merge trh)

/-- Top of `switch_firmware`: resolve the mode, short-circuit when already
on target without `force_flash`, else trigger and continue with
`switch_after_trigger`. -/
def switch_firmware (env : SwitchEnv) (target mode uf2Path : String)
    (installHelpers forceFlash : Bool) : Except String Bool × STrace :=
  match resolve_mode env mode with
  | .error e => (.error e, STrace.zero)
  | .ok selected =>
    if selected = target ∧ forceFlash = false then
      match install_helpers_if_requested env target installHelpers with
      | (.error e, tr) => (.error e, tr)
      | (.ok _, tr) => (.ok false, tr)
    else
      switch_after_trigger env target uf2Path installHelpers
        (trigger_bootsel env selected)

/-- Unfolding of `switch_firmware` once the mode is resolved. -/
theorem switch_firmware_resolved (env : SwitchEnv)
    (target mode uf2Path selected : String) (installHelpers forceFlash : Bool)
    (hres : resolve_mode env mode = .ok selected) :
    switch_firmware env target mode uf2Path installHelpers forceFlash =
      if selected = target ∧ forceFlash = false then
        match install_helpers_if_requested env target installHelpers with
        | (.error e, tr) => (.error e, tr)
        | (.ok _, tr) => (.ok false, tr)
      else
        switch_after_trigger env target uf2Path installHelpers
          (trigger_bootsel env selected) := by
  unfold switch_firmware
  rw [hres]

/-- When the helper step would succeed, helper provisioning succeeds and
performs nothing but (possibly) the helper run itself. -/
theorem install_helpers_ok (env : SwitchEnv) (target : String)
    (installHelpers : Bool) (hhelper : env.helperStep = .ok ()) :
    ∃ n, install_helpers_if_requested env target installHelpers =
      (.ok (), ⟨0, [], 0, 0, n⟩) := by
  unfold install_helpers_if_requested
  by_cases h : target ≠ "py" ∨ installHelpers = false
  · exact ⟨0, by rw [if_pos h]; rfl⟩
  · refine ⟨1, ?_⟩
    rw [if_neg h, hhelper]

/-- After a non-raising trigger, a successful mount, an existing UF2 and a
successful helper step, the continuation flashes exactly once. -/
theorem switch_after_trigger_ok (env : SwitchEnv)
    (target uf2Path mp : String) (installHelpers : Bool)
    (te : Option String) (tr : STrace)
    (hmount : env.mount = .ok mp) (huf2 : env.uf2Exists = true)
    (hhelper : env.helperStep = .ok ()) :
    ∃ n, switch_after_trigger env target uf2Path installHelpers (.ok te, tr) =
      (.ok true,
        ((tr.merge ⟨0, [], 1, 0, 0⟩).merge ⟨0, [], 0, 1, 0⟩).merge ⟨0, [], 0, 0, n⟩) := by
  obtain ⟨n, hinst⟩ := install_helpers_ok env target installHelpers hhelper
  refine ⟨n, ?_⟩
  unfold switch_after_trigger
  rw [hmount]
  have hcopy : copy_uf2 env.uf2Exists uf2Path = .ok () := by
    rw [huf2]; rfl
  rw [hcopy, hinst]

/-- After a trigger whose captured error is `te` and a failed mount wait,
the continuation raises the combined or the raw failure. -/
theorem switch_after_trigger_mount_fail (env : SwitchEnv)
    (target uf2Path m : String) (installHelpers : Bool)
    (te : Option String) (tr : STrace)
    (hmount : env.mount = .error m) :
    switch_after_trigger env target uf2Path installHelpers (.ok te, tr) =
      (match te with
        | some t => .error ("MicroPython trigger failed: " ++ t)
        | none => .error m, tr.merge ⟨0, [], 1, 0, 0⟩) := by
  unfold switch_after_trigger
  rw [hmount]
  cases te <;> rfl

/-- C2: for every switch request whose resolved mode equals the target
(`"py"` or `"cpp"`), with the mount wait succeeding, the image present and
the helper step succeeding: with `force_flash=false` the orchestrator
performs zero UF2 copies, zero mount waits, zero MicroPython triggers and
zero serial writes and returns outcome `false`; invoked with
`force_flash=true` it performs exactly one UF2 copy and returns outcome
`true`. -/
theorem switch_firmware_idempotent (env : SwitchEnv)
    (target mode uf2Path mp : String) (installHelpers : Bool)
    (hres : resolve_mode env mode = .ok target)
    (htarget : target = "py" ∨ target = "cpp")
    (hserial : env.serialOpen = .ok ())
    (hmount : env.mount = .ok mp)
    (huf2 : env.uf2Exists = true)
    (hhelper : env.helperStep = .ok ()) :
    ((switch_firmware env target mode uf2Path installHelpers false).1 = .ok false ∧
      (switch_firmware env target mode uf2Path installHelpers false).2.uf2Copies = 0 ∧
      (switch_firmware env target mode uf2Path installHelpers false).2.mountWaits = 0 ∧
      (switch_firmware env target mode uf2Path installHelpers false).2.pyTriggers = 0 ∧
      (switch_firmware env target mode uf2Path installHelpers false).2.serialWrites = []) ∧
    ((switch_firmware env target mode uf2Path installHelpers true).1 = .ok true ∧
      (switch_firmware env target mode uf2Path installHelpers true).2.uf2Copies = 1) := by
  obtain ⟨n, hinst⟩ := install_helpers_ok env target installHelpers hhelper
  constructor
  · have hfalse : switch_firmware env target mode uf2Path installHelpers false =
        (.ok false, ⟨0, [], 0, 0, n⟩) := by
      rw [switch_firmware_resolved env target mode uf2Path target installHelpers false hres,
        if_pos ⟨rfl, rfl⟩, hinst]
    rw [hfalse]
    exact ⟨rfl, rfl, rfl, rfl, rfl⟩
  · have hcond : ¬(target = target ∧ true = false) := by simp
    rw [switch_firmware_resolved env target mode uf2Path target installHelpers true hres,
      if_neg hcond]
    rcases htarget with rfl | rfl
    · have htrig : trigger_bootsel env "py" =
          (.ok (trigger_from_py env.pyTrigger), ⟨1, [], 0, 0, 0⟩) := rfl
      rw [htrig]
      obtain ⟨n', hok⟩ := switch_after_trigger_ok env "py" uf2Path mp installHelpers
        (trigger_from_py env.pyTrigger) ⟨1, [], 0, 0, 0⟩ hmount huf2 hhelper
      rw [hok]
      exact ⟨rfl, rfl⟩
    · have htrig : trigger_bootsel env "cpp" =
          (.ok none, ⟨0, writesOf PicoSwitcher.trigger_from_cpp, 0, 0, 0⟩) := by
        have hstep : trigger_bootsel env "cpp" =
            match env.serialOpen with
            | .error e => (.error e, STrace.zero)
            | .ok _ => (.ok none, ⟨0, writesOf PicoSwitcher.trigger_from_cpp, 0, 0, 0⟩) := rfl
        rw [hstep, hserial]
      rw [htrig]
      obtain ⟨n', hok⟩ := switch_after_trigger_ok env "cpp" uf2Path mp installHelpers
        none ⟨0, writesOf PicoSwitcher.trigger_from_cpp, 0, 0, 0⟩ hmount huf2 hhelper
      rw [hok]
      exact ⟨rfl, rfl⟩

/-- Witness for C2: explicit mode override `"py"`, target `"py"`, helpers
requested, all collaborators healthy. -/
theorem switch_firmware_idempotent_witness :
    ((switch_firmware ⟨.ok none, ⟨true, "", ""⟩, .ok (), .ok "/mnt/pico", true, .ok ()⟩
        "py" "py" "fw.uf2" true false).1 = .ok false ∧
      (switch_firmware ⟨.ok none, ⟨true, "", ""⟩, .ok (), .ok "/mnt/pico", true, .ok ()⟩
        "py" "py" "fw.uf2" true false).2.uf2Copies = 0 ∧
      (switch_firmware ⟨.ok none, ⟨true, "", ""⟩, .ok (), .ok "/mnt/pico", true, .ok ()⟩
        "py" "py" "fw.uf2" true false).2.mountWaits = 0 ∧
      (switch_firmware ⟨.ok none, ⟨true, "", ""⟩, .ok (), .ok "/mnt/pico", true, .ok ()⟩
        "py" "py" "fw.uf2" true false).2.pyTriggers = 0 ∧
      (switch_firmware ⟨.ok none, ⟨true, "", ""⟩, .ok (), .ok "/mnt/pico", true, .ok ()⟩
        "py" "py" "fw.uf2" true false).2.serialWrites = []) ∧
    ((switch_firmware ⟨.ok none, ⟨true, "", ""⟩, .ok (), .ok "/mnt/pico", true, .ok ()⟩
        "py" "py" "fw.uf2" true true).1 = .ok true ∧
      (switch_firmware ⟨.ok none, ⟨true, "", ""⟩, .ok (), .ok "/mnt/pico", true, .ok ()⟩
        "py" "py" "fw.uf2" true true).2.uf2Copies = 1) :=
  switch_firmware_idempotent
    ⟨.ok none, ⟨true, "", ""⟩, .ok (), .ok "/mnt/pico", true, .ok ()⟩
    "py" "py" "fw.uf2" "/mnt/pico" true rfl (Or.inl rfl) rfl rfl rfl rfl

/-- C4: in every switch invocation whose resolved mode is the managed
runtime, when the trigger step captured an error and the bootloader mount
wait then fails, `switch_firmware` raises the combined failure whose
message foregrounds the captured trigger error; when no trigger error was
captured, the raw mount-wait failure is raised unchanged. -/
theorem switch_firmware_combined_trigger_failure (env : SwitchEnv)
    (target mode uf2Path m : String) (installHelpers forceFlash : Bool)
    (hres : resolve_mode env mode = .ok "py")
    (hskip : ¬("py" = target ∧ forceFlash = false))
    (hmount : env.mount = .error m) :
    (switch_firmware env target mode uf2Path installHelpers forceFlash).1 =
      (match trigger_from_py env.pyTrigger with
        | some te => .error ("MicroPython trigger failed: " ++ te)
        | none => .error m) := by
  rw [switch_firmware_resolved env target mode uf2Path "py" installHelpers forceFlash hres,
    if_neg hskip]
  have htrig : trigger_bootsel env "py" =
      (.ok (trigger_from_py env.pyTrigger), ⟨1, [], 0, 0, 0⟩) := rfl
  rw [htrig,
    switch_after_trigger_mount_fail env target uf2Path m installHelpers
      (trigger_from_py env.pyTrigger) ⟨1, [], 0, 0, 0⟩ hmount]

/-- Witness for C4: a MicroPython trigger whose `mpremote` run exits
nonzero with stderr `" device busy "` (captured as `"device busy"`), then
a mount wait that times out — the combined failure is raised. -/
theorem switch_firmware_combined_trigger_failure_witness :
    (switch_firmware
        ⟨.ok none, ⟨false, " device busy ", ""⟩, .ok (),
          .error "Timed out waiting for RPI-RP2", true, .ok ()⟩
        "cpp" "py" "fw.uf2" false false).1 =
      .error "MicroPython trigger failed: device busy" := by
  have h := switch_firmware_combined_trigger_failure
    ⟨.ok none, ⟨false, " device busy ", ""⟩, .ok (),
      .error "Timed out waiting for RPI-RP2", true, .ok ()⟩
    "cpp" "py" "fw.uf2" "Timed out waiting for RPI-RP2" false false rfl
    (by simp) rfl
  rw [h]
  rfl

/-- C9: with mode override `"auto"`, detection yielding no mode, and a
target different from the literal `"unknown"`, `switch_firmware` fails
with the mode-resolution error instructing the user to supply an explicit
mode override, and performs no MicroPython trigger, no serial write, no
mount wait and no UF2 copy. -/
theorem switch_firmware_unknown_mode (env : SwitchEnv)
    (target uf2Path : String) (installHelpers forceFlash : Bool)
    (hdetect : env.detect = .ok none)
    (htarget : target ≠ "unknown") :
    switch_firmware env target "auto" uf2Path installHelpers forceFlash =
      (.error "Could not detect current mode. Use --mode py|cpp|bootsel to override.",
        STrace.zero) := by
  have hres : resolve_mode env "auto" = .ok "unknown" := by
    unfold resolve_mode
    rw [if_pos rfl, hdetect]
    rfl
  rw [switch_firmware_resolved env target "auto" uf2Path "unknown"
      installHelpers forceFlash hres,
    if_neg (by rintro ⟨h1, _⟩; exact htarget h1.symm)]
  rfl

/-- Witness for C9: auto mode, no detection signal, target `"py"` — the
mode-resolution failure with the empty trace. -/
theorem switch_firmware_unknown_mode_witness :
    switch_firmware ⟨.ok none, ⟨true, "", ""⟩, .ok (), .ok "/mnt/pico", true, .ok ()⟩
        "py" "auto" "fw.uf2" true false =
      (.error "Could not detect current mode. Use --mode py|cpp|bootsel to override.",
        STrace.zero) :=
  switch_firmware_unknown_mode
    ⟨.ok none, ⟨true, "", ""⟩, .ok (), .ok "/mnt/pico", true, .ok ()⟩
    "py" "fw.uf2" true false rfl (by decide)

/-- C3 (code-bug evidence): the two `trigger_from_cpp` implementations
disagree.  The legacy `pico.py` one performs exactly the claimed event
sequence — the 1-byte primary trigger, a 0.15 s settle delay, then the
2-byte legacy trigger — while the `pico_switcher` one (the implementation
the packaged CLI dispatches to for resolved mode `"cpp"`) writes only the
1-byte primary trigger and never the legacy sequence. -/
theorem trigger_from_cpp_divergence :
    PicoLegacy.trigger_from_cpp =
      [.write [98], .flush, .sleep (3 / 20), .write [114, 117], .flush] ∧
    writesOf PicoLegacy.trigger_from_cpp = [[98], [114, 117]] ∧
    writesOf PicoSwitcher.trigger_from_cpp = [[98]] ∧
    (trigger_bootsel ⟨.ok none, ⟨true, "", ""⟩, .ok (), .ok "/mnt/pico", true, .ok ()⟩
        "cpp").2.serialWrites = [[98]] ∧
    writesOf PicoSwitcher.trigger_from_cpp ≠ writesOf PicoLegacy.trigger_from_cpp := by
  refine ⟨rfl, rfl, rfl, rfl, ?_⟩
  decide
